import Mathlib

/-!
Verification of the job orchestration and chunking subsystem of the
open_narrator repository (`app/services/chunking_service.py`,
`app/services/job_dispatcher.py`, `app/services/pipeline.py`,
`app/config.py`, `app/models.py`).

Python code is shallowly embedded: pure functions become Lean functions,
exceptions become `Except PyError`, database rows become records, and the
database table becomes a `List JobRow` with commits modeled as writes into
that list.  Floats that are only stored and compared against exact decimal
literals (job progress values) are modeled as rationals; the TTS tuning
floats, which are only copied around, are modeled as opaque `Option Int`.
The tiktoken tokenizer is an external dependency; it is modeled as a
pluggable `Encoding` (a function from strings to token lists), which is how
the specification describes it.  Concrete evaluations instantiate it with a
one-token-per-character encoding.
-/

/-- Model of Python `str.strip()`: drop whitespace from both ends. -/
def pyStrip (s : String) : String :=
  String.mk (((s.data.dropWhile Char.isWhitespace).reverse.dropWhile Char.isWhitespace).reverse)

/-- Scanner for `str.split(sep)` over character lists.  The fuel argument
only bounds the scan so the recursion is structural; `pySplitOn` supplies
`length + 1`, which is always sufficient because every step consumes at
least one character. -/
def listSplitOn (sep : List Char) : Nat → List Char → List Char → List (List Char)
  | 0, cs, acc => [acc.reverse ++ cs]
  | _fuel + 1, [], acc => [acc.reverse]
  | fuel + 1, c :: rest, acc =>
    if sep.isPrefixOf (c :: rest) ∧ sep ≠ [] then
      acc.reverse :: listSplitOn sep fuel (List.drop (sep.length - 1) rest) []
    else
      listSplitOn sep fuel rest (c :: acc)

/-- Model of Python `s.split(sep)` for a non-empty separator: the pieces of
`s` between non-overlapping occurrences of `sep`, scanned left to right. -/
def pySplitOn (s sep : String) : List String :=
  (listSplitOn sep.data (s.data.length + 1) s.data []).map String.mk

/-- Model of Python `sep.join(xs)`. -/
def pyJoin (sep : String) : List String → String
  | [] => ""
  | [x] => x
  | x :: rest => x ++ sep ++ pyJoin sep rest

/-- Python exceptions, as far as the embedded code distinguishes them:
`ValueError` (raised explicitly by the chunker), `AttributeError` (raised by
attribute access on a missing attribute of a pydantic `Settings` object or a
SQLAlchemy `Job` row), and a generic exception carrying its `str(e)` message
(collaborator failures such as `TranscriptionError`). -/
inductive PyError where
  | valueError (msg : String)
  | attributeError (msg : String)
  | exc (msg : String)
deriving DecidableEq, Repr

/-- `str(e)` of an exception: the message it carries. -/
def PyError.str : PyError → String
  | .valueError msg => msg
  | .attributeError msg => msg
  | .exc msg => msg

/-- Decidable equality on `Except`, needed to settle concrete evaluations of
the embedded fallible functions. -/
def exceptDecEq {ε α : Type} [DecidableEq ε] [DecidableEq α] :
    DecidableEq (Except ε α)
  | .ok x, .ok y =>
    match decEq x y with
    | isTrue h => isTrue (by rw [h])
    | isFalse h => isFalse (by intro hc; cases hc; exact h rfl)
  | .ok _, .error _ => isFalse (by intro hc; cases hc)
  | .error _, .ok _ => isFalse (by intro hc; cases hc)
  | .error e, .error f =>
    match decEq e f with
    | isTrue h => isTrue (by rw [h])
    | isFalse h => isFalse (by intro hc; cases hc; exact h rfl)

instance {ε α : Type} [DecidableEq ε] [DecidableEq α] : DecidableEq (Except ε α) :=
  exceptDecEq

/-- `app/models.py` lines 12-22: the `JobStatus` enum. -/
inductive JobStatus where
  | pending
  | transcribing
  | transcribed
  | translating
  | translated
  | generating_audio
  | completed
  | failed
deriving DecidableEq, Repr

/-- Enum member access `JobStatus.DISPATCHING`: `app/models.py` defines no
such member, although `app/services/job_dispatcher.py` (lines 135, 193, 224)
and `app/services/bulk_worker.py` reference it, so the access raises
`AttributeError` (a Python enum reports just the member name). -/
def JobStatusDispatching : Except PyError JobStatus :=
  .error (.attributeError "DISPATCHING")

/-- The `.value` of a `JobStatus` member (`JobStatus` is a `str` enum). -/
def JobStatus.value : JobStatus → String
  | .pending => "pending"
  | .transcribing => "transcribing"
  | .transcribed => "transcribed"
  | .translating => "translating"
  | .translated => "translated"
  | .generating_audio => "generating_audio"
  | .completed => "completed"
  | .failed => "failed"

/-- `app/config.py` lines 14-65: the fields of `Settings` that the embedded
code reads.  `Settings` defines `translation_max_tokens` (default 20000) and
`debug` (default `False`); it does NOT define `translation_chunk_overlap`,
`max_concurrent_jobs` or `dispatcher_poll_interval_seconds`, although other
modules read those attributes.  `model_config` uses `extra="ignore"`, so such
reads raise `AttributeError` at runtime; they are modeled below by accessor
functions returning `Except PyError`. -/
structure Settings where
  debug : Bool := false
  translation_max_tokens : Nat := 20000
  translation_max_output_tokens : Nat := 64000
deriving DecidableEq, Repr

/-- Attribute access `settings.translation_chunk_overlap`
(`app/services/chunking_service.py` line 75): the field is absent from
`Settings` in `app/config.py`, so the access raises `AttributeError`. -/
def Settings.translationChunkOverlap (_s : Settings) : Except PyError Nat :=
  .error (.attributeError "Settings object has no attribute translation_chunk_overlap")

/-- The pluggable tokenizer (`tiktoken` encoding in the source): `encode`
maps a text to its token list. -/
structure Encoding where
  encode : String → List Nat

/-- `app/services/chunking_service.py` lines 12-23: a `ChunkingService` holds
an encoding and the application settings. -/
structure ChunkingService where
  encoding : Encoding
  settings : Settings

/-- `app/services/chunking_service.py` lines 25-35: `count_tokens` is the
length of the encoded token list. -/
def ChunkingService.count_tokens (svc : ChunkingService) (text : String) : Nat :=
  (svc.encoding.encode text).length

/-- Does the character list start with a whitespace character?  Used to model
the `\s+` part of the sentence-splitting regex. -/
def firstIsWhitespace : List Char → Bool
  | [] => false
  | c :: _ => c.isWhitespace

/-- Character-level scanner modeling `re.split(r"(?<=[.!?])\s+", text)`
(`app/services/chunking_service.py` line 191): a split point is a maximal
whitespace run immediately preceded by `.`, `!` or `?`; the punctuation stays
with the preceding sentence and the whitespace run is consumed.  The fuel
argument only bounds the scan so the recursion is structural; the caller
supplies `length + 1`, always sufficient because every step consumes at
least one character. -/
def sentenceSplitGo : Nat → List Char → List Char → List (List Char)
  | 0, cs, acc => [acc.reverse ++ cs]
  | _fuel + 1, [], acc => [acc.reverse]
  | fuel + 1, c :: rest, acc =>
    if (c = '.' ∨ c = '!' ∨ c = '?') ∧ firstIsWhitespace rest then
      (c :: acc).reverse :: sentenceSplitGo fuel (rest.dropWhile Char.isWhitespace) []
    else
      sentenceSplitGo fuel rest (c :: acc)

/-- `app/services/chunking_service.py` lines 176-192: `_split_into_sentences`
splits on the regex and drops whitespace-only pieces. -/
def ChunkingService.split_into_sentences (_svc : ChunkingService) (text : String) :
    List String :=
  ((sentenceSplitGo (text.data.length + 1) text.data []).map (fun cs => String.mk cs)).filter
    (fun s => pyStrip s ≠ "")

/-- The backwards accumulation loop of `_get_overlap`
(`app/services/chunking_service.py` lines 213-219): walk the reversed
paragraph list, taking paragraphs while they fit in `overlap_tokens`, and
stop at the first one that does not. -/
def overlapTake (svc : ChunkingService) (overlap_tokens : Nat) :
    List String → Nat → List String
  | [], _ => []
  | p :: rest, current_tokens =>
    let para_tokens := svc.count_tokens p
    if current_tokens + para_tokens > overlap_tokens then []
    else p :: overlapTake svc overlap_tokens rest (current_tokens + para_tokens)

/-- `app/services/chunking_service.py` lines 194-227: `_get_overlap` returns
the last paragraphs of `text` fitting in `overlap_tokens`, wrapped in a
continuation marker, or `""`.  (`insert(0, ...)` on the reversed walk yields
the original order, hence the final `reverse`.) -/
def ChunkingService.get_overlap (svc : ChunkingService) (text : String)
    (overlap_tokens : Nat) : String :=
  if overlap_tokens = 0 then ""
  else
    let paragraphs := pySplitOn text "\n\n"
    let overlap_parts := (overlapTake svc overlap_tokens paragraphs.reverse 0).reverse
    let overlap_text := pyJoin "\n\n" overlap_parts
    if overlap_text ≠ "" then
      "[...continued from previous chunk]\n\n" ++ overlap_text ++ "\n\n"
    else ""

/-- Loop state of `chunk_text` (`app/services/chunking_service.py` lines
100-103): accumulated chunks, the current chunk (a paragraph/sentence list),
its token count, and the pending overlap text. -/
structure ChunkState where
  chunks : List String
  current_chunk : List String
  current_tokens : Nat
  overlap_text : String
deriving DecidableEq, Repr

/-- `"\n\n".join(...)` on a chunk-in-progress. -/
def joinChunk (parts : List String) : String :=
  pyJoin "\n\n" parts

/-- Inner sentence loop body (`app/services/chunking_service.py` lines
118-133), run for each sentence of a paragraph whose token count exceeds
`max_tokens`. -/
def processSentence (svc : ChunkingService) (max_tokens overlap_tokens : Nat)
    (st : ChunkState) (sentence : String) : ChunkState :=
  let sent_tokens := svc.count_tokens sentence
  if st.current_tokens + sent_tokens > max_tokens then
    let closed :=
      if st.current_chunk ≠ [] then
        let chunkText := joinChunk st.current_chunk
        (st.chunks ++ [chunkText], svc.get_overlap chunkText overlap_tokens)
      else (st.chunks, st.overlap_text)
    let current_chunk :=
      if closed.2 ≠ "" then [closed.2 ++ sentence] else [sentence]
    { chunks := closed.1
      current_chunk := current_chunk
      current_tokens := svc.count_tokens (joinChunk current_chunk)
      overlap_text := closed.2 }
  else
    { st with
      current_chunk := st.current_chunk ++ [sentence]
      current_tokens := st.current_tokens + sent_tokens }

/-- Outer paragraph loop body (`app/services/chunking_service.py` lines
105-162). -/
def processParagraph (svc : ChunkingService) (max_tokens overlap_tokens : Nat)
    (preserve_paragraphs : Bool) (st : ChunkState) (paragraph : String) :
    ChunkState :=
  let para_tokens := svc.count_tokens paragraph
  if para_tokens > max_tokens then
    if preserve_paragraphs then
      (svc.split_into_sentences paragraph).foldl
        (processSentence svc max_tokens overlap_tokens) st
    else
      let chunks :=
        if st.current_chunk ≠ [] then st.chunks ++ [joinChunk st.current_chunk]
        else st.chunks
      { chunks := chunks ++ [paragraph]
        current_chunk := []
        current_tokens := 0
        overlap_text := st.overlap_text }
  else if st.current_tokens + para_tokens > max_tokens then
    let closed :=
      if st.current_chunk ≠ [] then
        let chunkText := joinChunk st.current_chunk
        (st.chunks ++ [chunkText], svc.get_overlap chunkText overlap_tokens)
      else (st.chunks, st.overlap_text)
    if closed.2 ≠ "" then
      let current_chunk := [closed.2, paragraph]
      { chunks := closed.1
        current_chunk := current_chunk
        current_tokens := svc.count_tokens (joinChunk current_chunk)
        overlap_text := closed.2 }
    else
      { chunks := closed.1
        current_chunk := [paragraph]
        current_tokens := para_tokens
        overlap_text := closed.2 }
  else
    { st with
      current_chunk := st.current_chunk ++ [paragraph]
      current_tokens := st.current_tokens + para_tokens }

/-- `app/services/chunking_service.py` lines 37-174: `chunk_text`.
`Option Nat` arguments model the `int | None` parameters; Python `x or d`
falls back to the default when `x` is `None` or `0`, and the fallback for
`overlap_tokens` reads the missing `Settings.translation_chunk_overlap`
attribute (line 75). -/
def ChunkingService.chunk_text (svc : ChunkingService) (text : String)
    (maxTokensArg : Option Nat := none) (preserve_paragraphs : Bool := true)
    (overlapTokensArg : Option Nat := none) : Except PyError (List String) := do
  if text = "" ∨ pyStrip text = "" then
    throw (.valueError "Cannot chunk empty text")
  let max_tokens :=
    match maxTokensArg with
    | none => svc.settings.translation_max_tokens
    | some n => if n = 0 then svc.settings.translation_max_tokens else n
  let overlap_tokens ←
    match overlapTokensArg with
    | none => svc.settings.translationChunkOverlap
    | some n => if n = 0 then svc.settings.translationChunkOverlap else pure n
  if max_tokens < 100 then
    throw (.valueError s!"max_tokens must be at least 100, got {max_tokens}")
  if overlap_tokens ≥ max_tokens then
    throw (.valueError
      s!"overlap_tokens ({overlap_tokens}) must be less than max_tokens ({max_tokens})")
  let total_tokens := svc.count_tokens text
  if total_tokens ≤ max_tokens then
    return [text]
  let paragraphs :=
    if preserve_paragraphs then
      (pySplitOn text "\n\n").filter (fun p => pyStrip p ≠ "")
    else [text]
  let st := paragraphs.foldl
    (processParagraph svc max_tokens overlap_tokens preserve_paragraphs)
    { chunks := [], current_chunk := [], current_tokens := 0, overlap_text := "" }
  let chunks :=
    if st.current_chunk ≠ [] then st.chunks ++ [joinChunk st.current_chunk]
    else st.chunks
  return chunks

/-- One token per character: a concrete instantiation of the pluggable
tokenizer, used for concrete evaluations of the chunker. -/
def charEncoding : Encoding :=
  ⟨fun s => s.data.map Char.toNat⟩

/-- A `ChunkingService` over the character tokenizer and default settings. -/
def svcChar : ChunkingService :=
  { encoding := charEncoding, settings := {} }

/-! ### Job rows and the dispatcher (`app/models.py`, `app/services/job_dispatcher.py`) -/

/-- `app/models.py` lines 25-70: the columns of the `jobs` table.  Note that
`skip_translation`, `length_scale`, `noise_scale` and `noise_w_scale` are NOT
among them, although `app/api/routes.py` (lines 254-257),
`app/services/job_dispatcher.py` (lines 211-214) and
`app/services/pipeline.py` (lines 474-476) read or write those attributes;
such reads raise `AttributeError` and are modeled by the accessor functions
below.  Timestamps are modeled as opaque naturals, the `progress` float as a
rational (it only ever holds exact decimal values), and the nullable text
columns as `Option String`. -/
structure JobRow where
  id : Nat
  filename : String := "sample.mp3"
  original_path : String := "/tmp/sample.mp3"
  output_path : Option String := none
  source_language : String := "en"
  target_language : String := "ro"
  voice_id : String := "piper:en_US"
  context : Option String := none
  status : JobStatus := .pending
  progress : Rat := 0
  transcript : Option String := none
  translation : Option String := none
  error_message : Option String := none
  created_at : Nat := 0
  updated_at : Nat := 0
  completed_at : Option Nat := none
deriving DecidableEq, Repr

/-- Attribute access `job.skip_translation`: the column is absent from
`app/models.py`, so the access raises `AttributeError`. -/
def JobRow.skipTranslationAttr (_j : JobRow) : Except PyError Bool :=
  .error (.attributeError "Job object has no attribute skip_translation")

/-- Attribute access `job.length_scale`: the column is absent from
`app/models.py`, so the access raises `AttributeError`. -/
def JobRow.lengthScaleAttr (_j : JobRow) : Except PyError (Option Int) :=
  .error (.attributeError "Job object has no attribute length_scale")

/-- Attribute access `job.noise_scale`: the column is absent from
`app/models.py`, so the access raises `AttributeError`. -/
def JobRow.noiseScaleAttr (_j : JobRow) : Except PyError (Option Int) :=
  .error (.attributeError "Job object has no attribute noise_scale")

/-- Attribute access `job.noise_w_scale`: the column is absent from
`app/models.py`, so the access raises `AttributeError`. -/
def JobRow.noiseWScaleAttr (_j : JobRow) : Except PyError (Option Int) :=
  .error (.attributeError "Job object has no attribute noise_w_scale")

/-- `app/services/job_dispatcher.py` lines 45-58: the frozen `ClaimedJob`
snapshot dataclass. -/
structure ClaimedJob where
  id : Nat
  file_path : String
  source_lang : String
  target_lang : String
  voice_id : String
  context : String
  skip_translation : Bool
  length_scale : Option Int
  noise_scale : Option Int
  noise_w_scale : Option Int
deriving DecidableEq, Repr

/-- `app/services/job_dispatcher.py` lines 180-185: `SELECT id FROM jobs
WHERE status = PENDING ORDER BY created_at ASC LIMIT 1`. -/
def selectNextPendingId (db : List JobRow) : Option Nat :=
  match db.filter (fun r => r.status = .pending) with
  | [] => none
  | r :: rest =>
    some ((rest.foldl (fun best j => if j.created_at < best.created_at then j else best) r).id)

/-- `app/services/job_dispatcher.py` lines 190-195: the atomic conditional
update `UPDATE jobs SET status = DISPATCHING WHERE id = :id AND status =
PENDING`, returning the updated table and the SQL row count.  Building the
statement evaluates `JobStatus.DISPATCHING`, which raises `AttributeError`
(the member is missing from `app/models.py`) before anything is executed. -/
def claimUpdateById (db : List JobRow) (jid : Nat) :
    Except PyError (List JobRow × Nat) := do
  let newStatus ← JobStatusDispatching
  pure (db.map (fun r =>
          if r.id = jid ∧ r.status = .pending then { r with status := newStatus } else r),
        (db.filter (fun r => r.id = jid ∧ r.status = .pending)).length)

/-- `session.get(Job, job_id)`: fetch a row by primary key. -/
def sessionGet (db : List JobRow) (jid : Nat) : Option JobRow :=
  db.find? (fun r => r.id == jid)

/-- `app/services/job_dispatcher.py` lines 204-215: construction of the
`ClaimedJob` snapshot from a fetched row.  Reading `job.skip_translation`,
`job.length_scale`, `job.noise_scale`, `job.noise_w_scale` raises
`AttributeError`, because those columns are missing from `app/models.py`. -/
def buildClaimedJob (job : JobRow) : Except PyError ClaimedJob := do
  let skip ← job.skipTranslationAttr
  let ls ← job.lengthScaleAttr
  let ns ← job.noiseScaleAttr
  let nws ← job.noiseWScaleAttr
  pure { id := job.id
         file_path := job.original_path
         source_lang := job.source_language
         target_lang := job.target_language
         voice_id := job.voice_id
         context := job.context.getD ""
         skip_translation := skip
         length_scale := ls
         noise_scale := ns
         noise_w_scale := nws }

/-- `app/services/job_dispatcher.py` lines 176-217: `_claim_next_job`.
Returns the claim outcome (possibly a raised exception) together with the
table after the committed conditional update. -/
def claim_next_job (db : List JobRow) : Except PyError (Option ClaimedJob) × List JobRow :=
  match selectNextPendingId db with
  | none => (.ok none, db)
  | some job_id =>
    match claimUpdateById db job_id with
    | .error e => (.error e, db)
    | .ok (db2, rowcount) =>
      if rowcount = 0 then (.ok none, db2)
      else
        match sessionGet db2 job_id with
        | none => (.ok none, db2)
        | some job => ((buildClaimedJob job).map some, db2)

/-- The `affected_states` tuple of `_reset_incomplete_jobs`
(`app/services/job_dispatcher.py` lines 223-230).  Its first element is
`JobStatus.DISPATCHING`, whose evaluation raises `AttributeError` (the
member is missing from `app/models.py`). -/
def affectedStatesTuple : Except PyError (List JobStatus) := do
  let dispatching ← JobStatusDispatching
  pure [dispatching, .transcribing, .transcribed, .translating, .translated,
        .generating_audio]

/-- `app/services/job_dispatcher.py` lines 219-238: `_reset_incomplete_jobs`,
`UPDATE jobs SET status = PENDING WHERE status IN affected_states`.  The
tuple construction raises before the update statement is built. -/
def reset_incomplete_jobs (db : List JobRow) : Except PyError (List JobRow) := do
  let affected ← affectedStatesTuple
  pure (db.map (fun r =>
    if r.status ∈ affected then { r with status := .pending } else r))

/-! ### The dispatcher loop (`app/services/job_dispatcher.py` lines 117-147) -/

/-- State owned by the dispatcher's coordinating task: the set of live
pipeline task handles (`self._active_tasks`, modeled by their ids), the
concurrency bound `self._max_parallel`, a counter supplying fresh task ids,
and the jobs table. -/
structure LoopState where
  active_tasks : List Nat
  max_parallel : Nat
  next_task_id : Nat
  db : List JobRow

/-- What one loop iteration did. -/
inductive LoopAction where
  | slept                          -- at capacity: sleep a poll interval, claim nothing
  | claimedNone                    -- no pending job (or lost the race): sleep and retry
  | launched (task : Nat) (jobId : Nat)  -- claimed a job and started a pipeline task
  | errored                        -- an exception escaped `_claim_next_job`; the loop dies
deriving DecidableEq, Repr

/-- Environment input to one iteration: which active tasks finished since
the last one (their done-callbacks discard them / `_prune_finished_tasks`
removes them), and any job rows inserted by the intake layer meanwhile. -/
structure EnvStep where
  finished : Nat → Bool
  newJobs : List JobRow

/-- One iteration of `_run_loop` (`app/services/job_dispatcher.py` lines
120-143): prune finished tasks; if the active count is at or above
`max_parallel`, sleep and continue; otherwise attempt a claim; on `None`
sleep and continue; on a claim, emit the dispatching event and launch a
pipeline task, tracking its handle. -/
def runIter (s : LoopState) (env : EnvStep) : LoopState × LoopAction :=
  let db := s.db ++ env.newJobs
  let active := s.active_tasks.filter (fun t => !env.finished t)
  if active.length ≥ s.max_parallel then
    ({ s with active_tasks := active, db := db }, .slept)
  else
    match claim_next_job db with
    | (.ok none, db2) => ({ s with active_tasks := active, db := db2 }, .claimedNone)
    | (.ok (some cj), db2) =>
      ({ s with active_tasks := active ++ [s.next_task_id],
                next_task_id := s.next_task_id + 1, db := db2 },
       .launched s.next_task_id cj.id)
    | (.error _, db2) => ({ s with active_tasks := active, db := db2 }, .errored)

/-- The states reached by successive loop iterations under an environment
trace; an escaped exception ends the loop. -/
def iterStates (s : LoopState) : List EnvStep → List LoopState
  | [] => []
  | env :: rest =>
    let step := runIter s env
    step.1 :: (if step.2 = .errored then [] else iterStates step.1 rest)

/-! ### The dispatcher object (`start`/`stop`,
`app/services/job_dispatcher.py` lines 84-115) -/

/-- Coarse dispatcher-object state: `dispatcher_task` is
`self._dispatcher_task` (the handle of the loop task, if any),
`running_loops` counts loop tasks actually alive, `sweeps` counts runs of
the crash-recovery sweep, `next_task` supplies fresh handles. -/
structure Dispatcher where
  dispatcher_task : Option Nat
  running_loops : Nat
  sweeps : Nat
  next_task : Nat
  db : List JobRow

/-- `start()` (`app/services/job_dispatcher.py` lines 84-94): if a loop task
already exists the call returns immediately, running nothing; otherwise it
runs `_reset_incomplete_jobs` (counted by `sweeps`; under the shipped
`models.py` the sweep raises, the exception propagates out of `start()` and
no loop task is launched) and, on success, launches the loop task. -/
def dispatcherStart (d : Dispatcher) : Dispatcher × Option PyError :=
  if d.dispatcher_task.isSome then (d, none)
  else
    match reset_incomplete_jobs d.db with
    | .error e => ({ d with sweeps := d.sweeps + 1 }, some e)
    | .ok db2 =>
      ({ d with db := db2
                sweeps := d.sweeps + 1
                dispatcher_task := some d.next_task
                running_loops := d.running_loops + 1
                next_task := d.next_task + 1 }, none)

/-- `stop()` (`app/services/job_dispatcher.py` lines 96-115): if no loop
task exists the call returns immediately; otherwise it signals shutdown,
awaits the loop task's exit and clears the handle. -/
def dispatcherStop (d : Dispatcher) : Dispatcher :=
  if d.dispatcher_task.isNone then d
  else { d with dispatcher_task := none, running_loops := d.running_loops - 1 }

/-- An external call to the dispatcher object. -/
inductive DispOp where
  | start
  | stop
deriving DecidableEq, Repr

/-- Apply one call. -/
def applyDispOp (d : Dispatcher) : DispOp → Dispatcher
  | .start => (dispatcherStart d).1
  | .stop => dispatcherStop d

/-- All states visited while serving a call sequence. -/
def dispStates (d : Dispatcher) : List DispOp → List Dispatcher
  | [] => []
  | op :: rest =>
    let d2 := applyDispOp d op
    d2 :: dispStates d2 rest

/-! ### The pipeline executor (`app/services/pipeline.py`) -/

/-- `app/schemas.py` lines 65-71: the `ProgressUpdate` event broadcast via
`send_progress_update`. -/
structure ProgressUpdate where
  job_id : Nat
  status : JobStatus
  progress : Rat
  message : Option String := none
deriving DecidableEq, Repr

/-- A collaborator invocation performed by the pipeline, recorded in order. -/
inductive CollabCall where
  | extractText
  | transcribe
  | translate
  | generateAudio
deriving DecidableEq, Repr

/-- The external collaborators the pipeline calls
(text-extraction service, STT service, translation service, text
preprocessor, TTS service, and the filesystem check on the produced output
path).  Each fallible one returns `Except PyError` carrying `str(e)` of
whatever it raises. -/
structure Collaborators where
  extract_text : String → Except PyError String
  transcribe : String → String → Except PyError String
  translate : String → String → String → String → Except PyError String
  prepare_for_tts : String → String
  generate_audio : String → String → String →
    Option Int → Option Int → Option Int → Except PyError String
  output_exists : String → Bool

/-- Observable outcome of a pipeline run: the jobs table, the broadcast
events in emission order, and the collaborator calls in invocation order. -/
structure PipelineResult where
  db : List JobRow
  events : List ProgressUpdate
  calls : List CollabCall
deriving Repr

/-- `db.query(Job).filter(Job.id == job_id).first()`. -/
def findJob (db : List JobRow) (job_id : Nat) : Option JobRow :=
  db.find? (fun r => r.id == job_id)

/-- `db.commit()` after mutating a fetched row: write the row back into the
table by primary key. -/
def commitJob (db : List JobRow) (job : JobRow) : List JobRow :=
  db.map (fun r => if r.id == job.id then job else r)

/-- `app/services/pipeline.py` lines 578-613: `_handle_job_failure` marks
the job `FAILED` with the error message (leaving `progress` at its last
persisted value), commits, and broadcasts a final event of the form
`"Failed at <stage> stage: <detail>"` carrying the persisted progress. -/
def handle_job_failure (db : List JobRow) (job : JobRow) (error_message : String)
    (failed_stage : JobStatus) : List JobRow × ProgressUpdate :=
  let job2 := { job with status := .failed, error_message := some error_message }
  (commitJob db job2,
   { job_id := job2.id
     status := .failed
     progress := job2.progress
     message := some ("Failed at " ++ failed_stage.value ++ " stage: " ++ error_message) })

/-- Stages 3 and 4 of `process_audio` (`app/services/pipeline.py` lines
399-556): audio generation and finalization, entered with the translation in
hand.  Evaluating the `generate_audio` call arguments reads
`job.length_scale`, `job.noise_scale`, `job.noise_w_scale` (lines 474-476);
those columns are missing from `app/models.py`, so under the shipped model
the first read raises `AttributeError`, which the stage-3 handler catches
before the TTS collaborator is invoked.  The remaining code is embedded for
completeness.  The finalization cleanup of the uploaded file (lines 537-549)
is a filesystem side effect with no observable effect on the job row, the
events or the collaborator calls, and is not modeled; `completed_at` is an
opaque timestamp, modeled as `some 0`. -/
def pipelineStage3 (collab : Collaborators) (db : List JobRow) (job : JobRow)
    (translation : String) (voice_id target_lang : String)
    (events : List ProgressUpdate) (calls : List CollabCall) : PipelineResult :=
  let job4 := { job with status := .generating_audio, progress := 70 }
  let db4 := commitJob db job4
  let ev4 : ProgressUpdate :=
    { job_id := job4.id, status := .generating_audio, progress := 70,
      message := some "Generating audio..." }
  let prepared := collab.prepare_for_tts translation
  match job4.lengthScaleAttr with
  | .error e =>
    let hf := handle_job_failure db4 job4 ("Audio generation failed: " ++ e.str)
      .generating_audio
    { db := hf.1, events := events ++ [ev4, hf.2], calls := calls }
  | .ok ls =>
    match job4.noiseScaleAttr, job4.noiseWScaleAttr with
    | .error e, _ | _, .error e =>
      let hf := handle_job_failure db4 job4 ("Audio generation failed: " ++ e.str)
        .generating_audio
      { db := hf.1, events := events ++ [ev4, hf.2], calls := calls }
    | .ok ns, .ok nws =>
      match collab.generate_audio prepared voice_id target_lang ls ns nws with
      | .error e =>
        let hf := handle_job_failure db4 job4 ("Audio generation failed: " ++ e.str)
          .generating_audio
        { db := hf.1, events := events ++ [ev4, hf.2],
          calls := calls ++ [.generateAudio] }
      | .ok output_path =>
        if !collab.output_exists output_path then
          let hf := handle_job_failure db4 job4
            ("Audio generation failed: Output file not found: " ++ output_path)
            .generating_audio
          { db := hf.1, events := events ++ [ev4, hf.2],
            calls := calls ++ [.generateAudio] }
        else
          let job5 := { job4 with output_path := some output_path, progress := 95 }
          let db5 := commitJob db4 job5
          let ev5 : ProgressUpdate :=
            { job_id := job5.id, status := .generating_audio, progress := 95,
              message := some "Audio generation complete" }
          let job6 := { job5 with
            status := .completed
            progress := 100
            completed_at := some 0 }
          let db6 := commitJob db5 job6
          let ev6 : ProgressUpdate :=
            { job_id := job6.id, status := .completed, progress := 100,
              message := some "Processing complete! Ready for download." }
          { db := db6, events := events ++ [ev4, ev5, ev6],
            calls := calls ++ [.generateAudio] }

/-- `app/services/pipeline.py` lines 59-575: `process_audio`.  Stage 1
(transcription or text extraction, 0-30%), stage 2 (translation, 30-70%,
skipped verbatim when `skip_translation`), then stages 3-4 via
`pipelineStage3`.  Progress callbacks from worker threads only repost
intermediate progress of a stage and are modeled as not firing; the
`settings.debug` branches only write debug files and are not modeled.  The
`length_scale`/`noise_scale`/`noise_w_scale` parameters are accepted (as in
the source) but unused: the code reads those values from the job row
instead. -/
def process_audio (collab : Collaborators) (db0 : List JobRow) (job_id : Nat)
    (file_path : String) (source_lang : String) (target_lang : String)
    (voice_id : String) (context : String := "") (file_type : String := "audio")
    (skip_translation : Bool := false) (_length_scale : Option Int := none)
    (_noise_scale : Option Int := none) (_noise_w_scale : Option Int := none) :
    PipelineResult :=
  match findJob db0 job_id with
  | none => { db := db0, events := [], calls := [] }
  | some job0 =>
    -- STAGE 1: transcription / text extraction (lines 126-261)
    let job1 := { job0 with status := .transcribing, progress := 0 }
    let db1 := commitJob db0 job1
    let ev1 : ProgressUpdate :=
      { job_id := job_id, status := .transcribing, progress := 0,
        message := some (if file_type = "text" then "Extracting text from file..."
                         else "Starting transcription...") }
    let stage1 : Except PyError String × CollabCall :=
      if file_type = "text" then (collab.extract_text file_path, .extractText)
      else (collab.transcribe file_path source_lang, .transcribe)
    match stage1.1 with
    | .error e =>
      let hf := handle_job_failure db1 job1 ("Transcription failed: " ++ e.str)
        .transcribing
      { db := hf.1, events := [ev1, hf.2], calls := [stage1.2] }
    | .ok transcript =>
      let job2 := { job1 with
        transcript := some transcript
        status := .transcribed
        progress := 30 }
      let db2 := commitJob db1 job2
      let ev2 : ProgressUpdate :=
        { job_id := job_id, status := .transcribed, progress := 30,
          message := some "Transcription complete" }
      -- STAGE 2: translation (lines 263-397)
      if skip_translation then
        let translation := transcript
        let job3 := { job2 with
          translation := some translation
          status := .translated
          progress := 70 }
        let db3 := commitJob db2 job3
        let ev3 : ProgressUpdate :=
          { job_id := job_id, status := .translated, progress := 70,
            message := some "Translation skipped (content already in target language)" }
        pipelineStage3 collab db3 job3 translation voice_id target_lang
          [ev1, ev2, ev3] [stage1.2]
      else
        let job3a := { job2 with status := .translating, progress := 30 }
        let db3a := commitJob db2 job3a
        let ev3a : ProgressUpdate :=
          { job_id := job_id, status := .translating, progress := 30,
            message := some "Starting translation..." }
        match collab.translate transcript source_lang target_lang context with
        | .error e =>
          let hf := handle_job_failure db3a job3a ("Translation failed: " ++ e.str)
            .translating
          { db := hf.1, events := [ev1, ev2, ev3a, hf.2],
            calls := [stage1.2, .translate] }
        | .ok translation =>
          let job3 := { job3a with
            translation := some translation
            status := .translated
            progress := 70 }
          let db3 := commitJob db3a job3
          let ev3b : ProgressUpdate :=
            { job_id := job_id, status := .translated, progress := 70,
              message := some "Translation complete" }
          pipelineStage3 collab db3 job3 translation voice_id target_lang
            [ev1, ev2, ev3a, ev3b] [stage1.2, .translate]

/-! ### Concrete inputs used by the claim evaluations -/

/-- A 40-character paragraph of `a`s. -/
def paraA : String := String.mk (List.replicate 40 'a')

/-- A 40-character paragraph of `b`s. -/
def paraB : String := String.mk (List.replicate 40 'b')

/-- A 40-character paragraph of `c`s. -/
def paraC : String := String.mk (List.replicate 40 'c')

/-- Three paragraphs joined by the paragraph separator: 124 characters, so
124 tokens under the character tokenizer. -/
def textABC : String := paraA ++ "\n\n" ++ paraB ++ "\n\n" ++ paraC

/-- The error raised by the `overlap_tokens` default lookup in `chunk_text`
(`app/services/chunking_service.py` line 75). -/
def overlapAttrError : PyError :=
  .attributeError "Settings object has no attribute translation_chunk_overlap"

/-- The chunks produced for `textABC` at `max_tokens = 100` when an explicit
`overlap_tokens = 90` sidesteps the crashing default lookup. -/
def chunksABC : List String :=
  (svcChar.chunk_text textABC (some 100) true (some 90)).toOption.getD []

/-- A single pending job row (the dispatcher test fixture's shape). -/
def pendingJob : JobRow := { id := 1 }

/-- A job stuck mid-pipeline in `TRANSLATING`. -/
def translatingJob : JobRow := { id := 2, status := .translating }

/-- A job in the terminal `FAILED` state. -/
def failedJob : JobRow := { id := 3, status := .failed }

/-- An environment step in which no task finishes and no job arrives. -/
def envW : EnvStep := { finished := fun _ => false, newJobs := [] }

/-- A loop state at its concurrency limit (one task, limit one). -/
def loopFull : LoopState :=
  { active_tasks := [7], max_parallel := 1, next_task_id := 8, db := [] }

/-- A dispatcher whose loop task is already running. -/
def dispRunning : Dispatcher :=
  { dispatcher_task := some 0, running_loops := 1, sweeps := 1, next_task := 1, db := [] }

set_option maxRecDepth 80000

/-! ### Claim theorems -/

/-- C7: the claim says `chunk_text` fails with `InvalidInput` (`ValueError`)
on empty or whitespace-only text and on `max_tokens < 100`.  The empty and
whitespace cases do raise `ValueError`, but with `max_tokens = 50` the
default `overlap_tokens` lookup at line 75 reads the missing
`Settings.translation_chunk_overlap` attribute and raises `AttributeError`
before the `max_tokens < 100` check at line 77 is reached, contradicting
`tests/test_chunking_service.py::test_max_tokens_too_small_raises_error`. -/
theorem chunkText_validation_bug :
    svcChar.chunk_text "" none true none =
      .error (.valueError "Cannot chunk empty text")
  ∧ svcChar.chunk_text "   \n\n  " none true none =
      .error (.valueError "Cannot chunk empty text")
  ∧ svcChar.chunk_text "Some text" (some 50) true none = .error overlapAttrError
  ∧ svcChar.chunk_text "Some text" (some 50) true none ≠
      .error (.valueError "max_tokens must be at least 100, got 50") := by
  refine ⟨by decide, by decide, by decide, by decide⟩

/-- C6: the claim says a text whose token count fits within `max_tokens`,
chunked per the spec contract (no overlap argument), is returned as a single
chunk equal to the input.  The text below has 41 tokens under the character
tokenizer, well within `max_tokens = 1000`, yet `chunk_text` raises
`AttributeError` at the `overlap_tokens` default lookup (line 75, missing
`Settings.translation_chunk_overlap`) before the single-chunk return at
lines 86-89, contradicting
`tests/test_chunking_service.py::test_single_chunk_fits_within_limit`. -/
theorem chunkText_single_chunk_bug :
    svcChar.count_tokens "Short text for convenience function test." ≤ 1000
  ∧ svcChar.chunk_text "Short text for convenience function test." (some 1000) true none
      = .error overlapAttrError := by
  refine ⟨by decide, by decide⟩

/-- C1: the claim says joining the chunks reproduces every paragraph exactly
once.  Per the spec contract (no overlap argument) the call raises
`AttributeError` (missing `Settings.translation_chunk_overlap`); with an
explicit positive `overlap_tokens` the still-present overlap machinery
(lines 126, 150, 194-227) repeats earlier paragraphs under a continuation
marker: `paraA` occurs twice in the joined chunks but once in the input,
contradicting
`tests/test_chunking_service.py::test_each_paragraph_appears_exactly_once`. -/
theorem chunkText_round_trip_bug :
    svcChar.chunk_text textABC (some 100) true none = .error overlapAttrError
  ∧ svcChar.chunk_text textABC (some 100) true (some 90) = .ok chunksABC
  ∧ chunksABC.length = 2
  ∧ (pySplitOn (pyJoin "\n\n" chunksABC) paraA).length = 3
  ∧ (pySplitOn textABC paraA).length = 2 := by
  refine ⟨by decide, by decide, by decide, by decide, by decide⟩

/-- C8: the claim says the per-chunk token counts sum to the whole-text
token count.  Per the spec contract the call raises `AttributeError`
(missing `Settings.translation_chunk_overlap`); with an explicit positive
`overlap_tokens` the repeated overlap text inflates the sum (244 tokens
against 124 in the input), contradicting the token-conservation assertion in
`tests/test_chunking_service.py::test_large_text_chunking_performance`. -/
theorem chunkText_token_conservation_bug :
    svcChar.chunk_text textABC (some 100) true none = .error overlapAttrError
  ∧ (chunksABC.map (fun c => svcChar.count_tokens c)).sum = 244
  ∧ svcChar.count_tokens textABC = 124
  ∧ (chunksABC.map (fun c => svcChar.count_tokens c)).sum ≠ svcChar.count_tokens textABC := by
  refine ⟨by decide, by decide, by decide, by decide⟩

/-- C2: the claim says that among concurrent `_claim_next_job` invocations
on a PENDING job, exactly one transitions it to DISPATCHING and returns a
`ClaimedJob` snapshot while the rest observe a zero-row conditional update.
In fact no invocation can succeed: building the conditional update evaluates
`JobStatus.DISPATCHING` (line 193), a member missing from the `JobStatus`
enum in `app/models.py`, so every invocation that finds the pending row
raises `AttributeError` before executing any update — the job row is left
untouched in PENDING and no snapshot is ever produced, contradicting
`tests/test_job_dispatcher.py::test_claim_next_job_marks_dispatching`.
(Had the update succeeded, the snapshot construction would next read the
`job.skip_translation` column, also missing from `app/models.py`.) -/
theorem claimNextJob_dispatching_bug :
    claim_next_job [pendingJob] = (.error (.attributeError "DISPATCHING"), [pendingJob])
  ∧ pendingJob.status = .pending
  ∧ buildClaimedJob pendingJob =
      .error (.attributeError "Job object has no attribute skip_translation") := by
  refine ⟨by decide, by decide, by decide⟩

/-- C3: the claim says the startup sweep resets every mid-pipeline job to
PENDING, leaves PENDING/COMPLETED/FAILED jobs alone, and is idempotent.  In
fact `_reset_incomplete_jobs` raises `AttributeError` while building its
`affected_states` tuple (line 224 evaluates `JobStatus.DISPATCHING`, a
member missing from the enum in `app/models.py`), so no job is ever reset:
a job stuck in `TRANSLATING` stays in `TRANSLATING`, contradicting
`tests/test_job_dispatcher.py::test_reset_incomplete_jobs`. -/
theorem resetIncompleteJobs_bug :
    reset_incomplete_jobs [translatingJob, failedJob] =
      .error (.attributeError "DISPATCHING")
  ∧ translatingJob.status = .translating
  ∧ failedJob.status = .failed := by
  refine ⟨by decide, by decide, by decide⟩

/-- C4: when the transcription collaborator raises (here an exception whose
`str` is `detail`), the run ends with the job `FAILED`, the persisted
`error_message` equal to `"Transcription failed: " ++ detail`, the final
broadcast event of the form `"Failed at transcribing stage: <detail>"`
carrying the last persisted progress value (0, written by the stage-1 status
update), and no translator or synthesizer invocation — the call trace is
exactly `[transcribe]`.  Holds for every detail string, every starting job
row and arbitrary other collaborators. -/
theorem pipeline_transcription_failure (detail : String) (job0 : JobRow)
    (ext : String → Except PyError String)
    (tr : String → String → String → String → Except PyError String)
    (prep : String → String)
    (gen : String → String → String → Option Int → Option Int → Option Int →
      Except PyError String)
    (exs : String → Bool)
    (fp sl tl v ctx : String) :
    process_audio
        { extract_text := ext
          transcribe := fun _ _ => .error (.exc detail)
          translate := tr
          prepare_for_tts := prep
          generate_audio := gen
          output_exists := exs }
        [job0] job0.id fp sl tl v ctx "audio" false none none none =
      { db := [{ job0 with
                 status := .failed
                 progress := 0
                 error_message := some ("Transcription failed: " ++ detail) }]
        events := [{ job_id := job0.id, status := .transcribing, progress := 0,
                     message := some "Starting transcription..." },
                   { job_id := job0.id, status := .failed, progress := 0,
                     message := some
                       ("Failed at transcribing stage: Transcription failed: " ++ detail) }]
        calls := [.transcribe] } := by
  simp [process_audio, findJob, commitJob, handle_job_failure, JobStatus.value, PyError.str]
  rfl

/-- C5: with `skip_translation = true` and extracted text `t`, the job's
`translation` column ends up exactly `t`, the translator collaborator is
never invoked, and the first three broadcast events advance progress
0 → 30 → 70, the third being the `TRANSLATED`/70 event with the
"Translation skipped" message — progress jumps from the 30% stage boundary
directly to 70.  Holds for every text, every starting job row and arbitrary
other collaborators. -/
theorem pipeline_skip_translation (t : String) (job0 : JobRow)
    (tr0 : String → String → Except PyError String)
    (tr : String → String → String → String → Except PyError String)
    (prep : String → String)
    (gen : String → String → String → Option Int → Option Int → Option Int →
      Except PyError String)
    (exs : String → Bool)
    (fp sl tl v ctx : String) :
    (process_audio
        { extract_text := fun _ => .ok t
          transcribe := tr0
          translate := tr
          prepare_for_tts := prep
          generate_audio := gen
          output_exists := exs }
        [job0] job0.id fp sl tl v ctx "text" true none none none).db.map
          (fun j => j.translation) = [some t]
  ∧ CollabCall.translate ∉
      (process_audio
        { extract_text := fun _ => .ok t
          transcribe := tr0
          translate := tr
          prepare_for_tts := prep
          generate_audio := gen
          output_exists := exs }
        [job0] job0.id fp sl tl v ctx "text" true none none none).calls
  ∧ (process_audio
        { extract_text := fun _ => .ok t
          transcribe := tr0
          translate := tr
          prepare_for_tts := prep
          generate_audio := gen
          output_exists := exs }
        [job0] job0.id fp sl tl v ctx "text" true none none none).events.take 3 =
      [{ job_id := job0.id, status := .transcribing, progress := 0,
         message := some "Extracting text from file..." },
       { job_id := job0.id, status := .transcribed, progress := 30,
         message := some "Transcription complete" },
       { job_id := job0.id, status := .translated, progress := 70,
         message := some "Translation skipped (content already in target language)" }] := by
  refine ⟨?_, ?_, ?_⟩ <;>
    simp [process_audio, findJob, commitJob, handle_job_failure, pipelineStage3,
      JobStatus.value, PyError.str, JobRow.lengthScaleAttr]

/-- One loop iteration never grows the active set beyond the concurrency
bound, and never changes the bound. -/
theorem runIter_active_le (s : LoopState) (env : EnvStep)
    (h : s.active_tasks.length ≤ s.max_parallel) :
    (runIter s env).1.active_tasks.length ≤ s.max_parallel ∧
    (runIter s env).1.max_parallel = s.max_parallel := by
  have hf : (s.active_tasks.filter (fun t => !env.finished t)).length ≤
      s.active_tasks.length := List.length_filter_le _ _
  by_cases hge : (s.active_tasks.filter (fun t => !env.finished t)).length ≥ s.max_parallel
  · simp only [runIter]
    rw [if_pos hge]
    exact ⟨le_trans hf h, rfl⟩
  · simp only [runIter]
    rw [if_neg hge]
    split
    · exact ⟨le_trans hf h, rfl⟩
    · refine ⟨?_, rfl⟩
      simp only [List.length_append, List.length_cons, List.length_nil]
      omega
    · exact ⟨le_trans hf h, rfl⟩

/-- The concurrency bound is an invariant of every state the loop reaches. -/
theorem iterStates_active_le (envs : List EnvStep) (s0 : LoopState)
    (h : s0.active_tasks.length ≤ s0.max_parallel) :
    ∀ s ∈ iterStates s0 envs,
      s.active_tasks.length ≤ s.max_parallel ∧ s.max_parallel = s0.max_parallel := by
  induction envs generalizing s0 with
  | nil => intro s hs; simp [iterStates] at hs
  | cons env rest ih =>
    intro s hs
    have hstep := runIter_active_le s0 env h
    simp only [iterStates] at hs
    rcases List.mem_cons.mp hs with rfl | hmem
    · exact ⟨by rw [hstep.2]; exact hstep.1, hstep.2⟩
    · by_cases herr : (runIter s0 env).2 = .errored
      · simp [herr] at hmem
      · rw [if_neg herr] at hmem
        have hrec := ih (runIter s0 env).1 (by rw [hstep.2]; exact hstep.1) s hmem
        exact ⟨hrec.1, by rw [hrec.2, hstep.2]⟩

/-- C9: starting from an empty active set, every state the scheduling loop
reaches — under any sequence of task completions and job arrivals, however
the claim attempts fare — has at most `max_concurrent_jobs` active pipeline
tasks; and whenever the pruned active count is at or above the limit, the
iteration sleeps the poll interval and claims no job: the active set is
exactly the pruned set and no task is launched. -/
theorem dispatcher_bounded_concurrency :
    (∀ (maxp : Nat) (db0 : List JobRow) (envs : List EnvStep) (s : LoopState),
      s ∈ iterStates
        { active_tasks := [], max_parallel := maxp, next_task_id := 0, db := db0 } envs →
      s.active_tasks.length ≤ maxp)
  ∧ (∀ (s : LoopState) (env : EnvStep),
      (s.active_tasks.filter (fun t => !env.finished t)).length ≥ s.max_parallel →
      (runIter s env).2 = .slept ∧
      (runIter s env).1.active_tasks = s.active_tasks.filter (fun t => !env.finished t)) := by
  constructor
  · intro maxp db0 envs s hs
    have hinv := iterStates_active_le envs _ (by simp) s hs
    exact le_of_le_of_eq hinv.1 hinv.2
  · intro s env hge
    simp only [runIter]
    rw [if_pos hge]
    exact ⟨rfl, rfl⟩

/-- Witness for C9: one concrete iteration from an idle loop with limit 1
stays within the bound, and a loop at its limit sleeps without claiming. -/
theorem dispatcher_bounded_concurrency_witness :
    ((runIter { active_tasks := [], max_parallel := 1, next_task_id := 0, db := [] }
        envW).1.active_tasks.length ≤ 1)
  ∧ ((runIter loopFull envW).2 = .slept ∧
     (runIter loopFull envW).1.active_tasks =
       loopFull.active_tasks.filter (fun t => !envW.finished t)) :=
  ⟨dispatcher_bounded_concurrency.1 1 [] [envW] _ (by simp [iterStates]),
   dispatcher_bounded_concurrency.2 loopFull envW (by decide)⟩

/-- Each dispatcher call preserves "the loop-task count matches the handle
slot": one loop task when `_dispatcher_task` is set, none otherwise. -/
theorem applyDispOp_invariant (d : Dispatcher) (op : DispOp)
    (h : d.running_loops = if d.dispatcher_task.isSome then 1 else 0) :
    (applyDispOp d op).running_loops =
      if (applyDispOp d op).dispatcher_task.isSome then 1 else 0 := by
  cases op with
  | start =>
    by_cases hs : d.dispatcher_task.isSome
    · simp [applyDispOp, dispatcherStart, hs]
      simpa [hs] using h
    · rcases hdb : reset_incomplete_jobs d.db with e | db2
      · simp [applyDispOp, dispatcherStart, hs, hdb]
        simpa [hs] using h
      · simp [applyDispOp, dispatcherStart, hs, hdb]
        simpa [hs] using h
  | stop =>
    by_cases hn : d.dispatcher_task.isNone
    · simp [applyDispOp, dispatcherStop, hn]
      simpa [Option.isNone_iff_eq_none.mp hn] using h
    · have hs : d.dispatcher_task.isSome := by
        rcases ht : d.dispatcher_task with _ | k
        · exact absurd (by simp [ht]) hn
        · simp
      simp [applyDispOp, dispatcherStop, hn]
      rw [h, if_pos hs]

/-- The invariant holds in every state visited while serving calls. -/
theorem dispStates_invariant (ops : List DispOp) (d0 : Dispatcher)
    (h : d0.running_loops = if d0.dispatcher_task.isSome then 1 else 0) :
    ∀ d ∈ dispStates d0 ops,
      d.running_loops = if d.dispatcher_task.isSome then 1 else 0 := by
  induction ops generalizing d0 with
  | nil => intro d hd; simp [dispStates] at hd
  | cons op rest ih =>
    intro d hd
    simp only [dispStates] at hd
    rcases List.mem_cons.mp hd with rfl | hmem
    · exact applyDispOp_invariant d0 op h
    · exact ih (applyDispOp d0 op) (applyDispOp_invariant d0 op h) d hmem

/-- C10: calling `start()` while the dispatcher loop task already exists
returns the object unchanged — the crash-recovery sweep does not run again
(`sweeps` is untouched) and no second loop task is launched; consequently,
along any sequence of `start()`/`stop()` calls from a consistent state, at
most one dispatcher loop task is ever alive. -/
theorem dispatcher_start_noop :
    (∀ d : Dispatcher, d.dispatcher_task.isSome → dispatcherStart d = (d, none))
  ∧ (∀ (d0 : Dispatcher) (ops : List DispOp),
      d0.running_loops = (if d0.dispatcher_task.isSome then 1 else 0) →
      ∀ d ∈ dispStates d0 ops, d.running_loops ≤ 1) := by
  constructor
  · intro d hs
    simp only [dispatcherStart]
    rw [if_pos hs]
  · intro d0 ops h d hd
    have hinv := dispStates_invariant ops d0 h d hd
    rw [hinv]
    split <;> omega

/-- Witness for C10: a concrete running dispatcher is unchanged by a second
`start()`, and one visited state of a call sequence has at most one loop. -/
theorem dispatcher_start_noop_witness :
    dispatcherStart dispRunning = (dispRunning, none)
  ∧ ((applyDispOp dispRunning .start).running_loops ≤ 1) :=
  ⟨dispatcher_start_noop.1 dispRunning rfl,
   dispatcher_start_noop.2 dispRunning [.start] rfl (applyDispOp dispRunning .start)
     (by simp [dispStates])⟩
